import Mathlib

/-!
Verification of `torchmeta/datasets/helpers_tabular.py`.

The file under verification is a pure configuration-plumbing module: the
function `helper_with_default_tabular` resolves defaults in a keyword
mapping, constructs a class-selection dataset, wraps it with a
`ClassSplitter` split operator, seeds it, and returns it.  The two entry
points `covertype` and `letter` emit a split-size warning when `ways > 3`
and then delegate to the helper.

The embedding below models the Python keyword mapping as a structure of
optional fields (a `none` field means "key absent"; a Python `None` value
stored under a present key is `some Value.pyNone`), warnings as a list
accumulated alongside the result, and Python exceptions as `Except`.
The collaborator constructors (`Covertype`, `Letter`, `ClassSplitter`,
the task dataset's `seed` method) live outside the source fragment; they
are modelled from the spec as recorders of the arguments they receive.
Python's duplicate-keyword-argument `TypeError` — raised by the call
`klass(folder, num_classes_per_task=ways, **kwargs)` whenever `kwargs`
still contains the key `num_classes_per_task` — is part of the call
semantics and is modelled at the call site, before any constructor runs.
-/

/-- Values that can appear in the keyword configuration: the fixed
default input transform `NumpyToTorch()`, a `Categorical(n)` label
encoder, Python's `None`, or an arbitrary caller-supplied object. -/
inductive Value where
  | NumpyToTorch : Value
  | Categorical : Int → Value
  | pyNone : Value
  | custom : String → Value
deriving DecidableEq, Repr

/-- The open keyword mapping `**kwargs` received by the helper.  A field
holding `none` models the key being absent from the Python dict; `extra`
holds arbitrary pass-through options under other keys. -/
structure Kwargs where
  num_classes_per_task : Option Int
  transform : Option Value
  target_transform : Option Value
  class_augmentations : Option Value
  extra : List (String × Value)
deriving DecidableEq, Repr

/-- The empty keyword mapping. -/
def Kwargs.empty : Kwargs := ⟨none, none, none, none, []⟩

/-- The optional `defaults` mapping consulted via `defaults.get(key, fallback)`. -/
structure Defaults where
  transform : Option Value
  target_transform : Option Value
  class_augmentations : Option Value
deriving DecidableEq, Repr

/-- The empty `defaults` mapping substituted when `defaults is None`. -/
def Defaults.empty : Defaults := ⟨none, none, none⟩

/-- The keyword configuration as it stands at the constructor call
`klass(folder, num_classes_per_task=ways, **kwargs)`: the three transform
keys have been filled in by the default-resolution steps, while the
`num_classes_per_task` key, when the caller supplied it, is still present
(the source never deletes it). -/
structure ResolvedKwargs where
  num_classes_per_task : Option Int
  transform : Value
  target_transform : Value
  class_augmentations : Value
  extra : List (String × Value)
deriving DecidableEq, Repr

/-- The warnings the module can emit via `warnings.warn`. -/
inductive Warning where
  | waysIgnored : Warning
  | splitSize : Int → Warning
deriving DecidableEq, Repr

/-- Python exceptions relevant to this module: the duplicate-keyword
`TypeError` raised by call binding, and any error raised inside a
collaborator constructor (carried opaquely). -/
inductive PyError where
  | typeErrorDuplicateKw : String → PyError
  | collaboratorError : String → PyError
deriving DecidableEq, Repr

/-- Modelled from the spec: the class-selection dataset produced by a
dataset constructor such as `Covertype` or `Letter` (defined outside the
source fragment, in `torchmeta.datasets`).  Per the spec the constructor
receives the root folder and the keyword configuration; the model records
them together with which dataset class was used. -/
structure ClassDataset where
  kind : String
  folder : String
  num_classes_per_task : Int
  kwargs : ResolvedKwargs
deriving DecidableEq, Repr

/-- Modelled from the spec: the task dataset returned by the split
operator.  It records the split operator's configuration and the history
of values passed to its `seed` method (empty at construction). -/
structure TaskDataset where
  dataset : ClassDataset
  shuffle : Bool
  num_train_per_class : Int
  num_test_per_class : Int
  seedHistory : List (Option Int)
deriving DecidableEq, Repr

/-- Modelled from the spec: a class-selection dataset constructor of the
shape `klass(folder, num_classes_per_task, **kwargs)` for a given dataset
class name; it records its arguments and does not fail on its own. -/
def classDatasetType (kind : String) (folder : String)
    (num_classes_per_task : Int) (kwargs : ResolvedKwargs) :
    Except PyError ClassDataset :=
  Except.ok ⟨kind, folder, num_classes_per_task, kwargs⟩

/-- Modelled from the spec: the `Covertype` meta-dataset class from
`torchmeta.datasets` (not part of the source fragment). -/
def Covertype : String → Int → ResolvedKwargs → Except PyError ClassDataset :=
  classDatasetType "Covertype"

/-- Modelled from the spec: the `Letter` meta-dataset class from
`torchmeta.datasets` (not part of the source fragment). -/
def Letter : String → Int → ResolvedKwargs → Except PyError ClassDataset :=
  classDatasetType "Letter"

/-- Modelled from the spec: the split operator
`ClassSplitter(dataset, shuffle, num_train_per_class, num_test_per_class)`
from `torchmeta.transforms` (not part of the source fragment); it records
its configuration and produces a task dataset with no seed applied yet. -/
def ClassSplitter (dataset : ClassDataset) (shuffle : Bool)
    (num_train_per_class num_test_per_class : Int) :
    Except PyError TaskDataset :=
  Except.ok ⟨dataset, shuffle, num_train_per_class, num_test_per_class, []⟩

/-- Modelled from the spec: the task dataset's `seed` mutator; each
invocation is recorded with the exact argument it received, so that
`seed(None)` is distinguishable from `seed(0)`. -/
def TaskDataset.seed (t : TaskDataset) (s : Option Int) : TaskDataset :=
  ⟨t.dataset, t.shuffle, t.num_train_per_class, t.num_test_per_class,
   t.seedHistory ++ [s]⟩

/-- Embedding of `helper_with_default_tabular` from
`src/torchmeta/datasets/helpers_tabular.py`.  The collaborator
constructors are parameters (in the source, `klass` is a parameter and
`ClassSplitter` / `.seed` are imported collaborators), so the helper's
own control flow — warning emission, default resolution, the order of
the two constructor calls, error propagation, seeding — is isolated.
The first component of the result is the list of warnings emitted, in
order; the second is the returned dataset or the propagated exception. -/
def helper_with_default_tabular {D T : Type}
    (klass : String → Int → ResolvedKwargs → Except PyError D)
    (splitOperator : D → Bool → Int → Int → Except PyError T)
    (seedMethod : T → Option Int → T)
    (folder : String) (shots ways : Int) (shuffle : Bool)
    (test_shots seed : Option Int)
    (defaults : Option Defaults) (kwargs : Kwargs) :
    List Warning × Except PyError T :=
  let defaults0 := defaults.getD Defaults.empty
  let warns : List Warning :=
    if (kwargs.num_classes_per_task).isSome then [Warning.waysIgnored] else []
  let effWays : Int := (kwargs.num_classes_per_task).getD ways
  let resolved : ResolvedKwargs :=
    ⟨kwargs.num_classes_per_task,
     (kwargs.transform).getD ((defaults0.transform).getD Value.NumpyToTorch),
     (kwargs.target_transform).getD
       ((defaults0.target_transform).getD (Value.Categorical effWays)),
     (kwargs.class_augmentations).getD
       ((defaults0.class_augmentations).getD Value.pyNone),
     kwargs.extra⟩
  let testShots : Int := test_shots.getD shots
  let result : Except PyError T :=
    if (kwargs.num_classes_per_task).isSome then
      Except.error (PyError.typeErrorDuplicateKw "num_classes_per_task")
    else
      match klass folder effWays resolved with
      | Except.error e => Except.error e
      | Except.ok d =>
        match splitOperator d shuffle shots testShots with
        | Except.error e => Except.error e
        | Except.ok t => Except.ok (seedMethod t seed)
  (warns, result)

/-- Embedding of the `covertype` entry point: warn when `ways > 3`
(default Covertype splits are 3/2/2), then delegate to the helper with
`defaults=None`. -/
def covertype (folder : String) (shots ways : Int) (shuffle : Bool)
    (test_shots seed : Option Int) (kwargs : Kwargs) :
    List Warning × Except PyError TaskDataset :=
  let w : List Warning := if 3 < ways then [Warning.splitSize ways] else []
  let r := helper_with_default_tabular Covertype ClassSplitter TaskDataset.seed
    folder shots ways shuffle test_shots seed none kwargs
  (w ++ r.1, r.2)

/-- Embedding of the `letter` entry point: warn when `ways > 3`
(default Letter splits are 3/2/2 per the docstring), then delegate to
the helper with `defaults=None`. -/
def letter (folder : String) (shots ways : Int) (shuffle : Bool)
    (test_shots seed : Option Int) (kwargs : Kwargs) :
    List Warning × Except PyError TaskDataset :=
  let w : List Warning := if 3 < ways then [Warning.splitSize ways] else []
  let r := helper_with_default_tabular Letter ClassSplitter TaskDataset.seed
    folder shots ways shuffle test_shots seed none kwargs
  (w ++ r.1, r.2)

/-- A class-selection dataset constructor that raises on every input;
used to exercise the helper's error-propagation behavior on a concrete
failing collaborator. -/
def alwaysFailingKlass : String → Int → ResolvedKwargs → Except PyError ClassDataset :=
  fun _ _ _ => Except.error (PyError.collaboratorError "boom")

/-- C7: for every argument tuple, `covertype` returns exactly the result
of the Task Builder applied to the `Covertype` dataset type with the same
arguments and `defaults = none`, and `letter` likewise with the `Letter`
dataset type: the public entry points never supply a non-empty defaults
mapping. -/
theorem entry_points_delegate (folder : String) (shots ways : Int)
    (shuffle : Bool) (test_shots seed : Option Int) (kwargs : Kwargs) :
    (covertype folder shots ways shuffle test_shots seed kwargs).2
      = (helper_with_default_tabular Covertype ClassSplitter TaskDataset.seed
          folder shots ways shuffle test_shots seed none kwargs).2
    ∧ (letter folder shots ways shuffle test_shots seed kwargs).2
      = (helper_with_default_tabular Letter ClassSplitter TaskDataset.seed
          folder shots ways shuffle test_shots seed none kwargs).2 :=
  ⟨rfl, rfl⟩

/-- C1 (code bug evidence): calling the helper with `ways = 3` and
`num_classes_per_task = 2` in the keyword mapping emits the single
configuration warning, but the construction does NOT complete: since the
key `num_classes_per_task` is never removed from `kwargs`, the call
`klass(folder, num_classes_per_task=ways, **kwargs)` raises a
duplicate-keyword `TypeError` in Python's call binding, so no dataset is
returned.  The claim (and the spec) say the warning is non-fatal and the
construction completes with effective ways `2`. -/
theorem ways_conflict_crashes :
    helper_with_default_tabular Covertype ClassSplitter TaskDataset.seed
        "folder" 5 3 true none none none ⟨some 2, none, none, none, []⟩
      = ([Warning.waysIgnored],
         Except.error (PyError.typeErrorDuplicateKw "num_classes_per_task")) :=
  rfl

/-- C10: for any collaborator constructors whatsoever, whenever the
keyword mapping contains `num_classes_per_task`, the helper's result is
the duplicate-keyword `TypeError`: the key is never removed before the
constructor call `klass(folder, num_classes_per_task=ways, **kwargs)`,
which therefore receives the keyword twice and fails before any dataset
is built (the class constructor and split operator are never consulted —
the conclusion holds uniformly in them). -/
theorem duplicate_keyword_type_error {D T : Type}
    (klass : String → Int → ResolvedKwargs → Except PyError D)
    (splitOperator : D → Bool → Int → Int → Except PyError T)
    (seedMethod : T → Option Int → T)
    (folder : String) (shots ways : Int) (shuffle : Bool)
    (test_shots seed : Option Int) (defaults : Option Defaults)
    (kwargs : Kwargs) (w : Int)
    (h : kwargs.num_classes_per_task = some w) :
    (helper_with_default_tabular klass splitOperator seedMethod
        folder shots ways shuffle test_shots seed defaults kwargs).2
      = Except.error (PyError.typeErrorDuplicateKw "num_classes_per_task") := by
  simp [helper_with_default_tabular, h]

/-- Witness for C10 at a concrete input. -/
theorem duplicate_keyword_type_error_witness :
    (⟨some 4, none, none, none, []⟩ : Kwargs).num_classes_per_task = some 4
    ∧ (helper_with_default_tabular Covertype ClassSplitter TaskDataset.seed
        "f" 2 3 true none none none ⟨some 4, none, none, none, []⟩).2
      = Except.error (PyError.typeErrorDuplicateKw "num_classes_per_task") :=
  ⟨rfl, duplicate_keyword_type_error Covertype ClassSplitter TaskDataset.seed
    "f" 2 3 true none none none ⟨some 4, none, none, none, []⟩ 4 rfl⟩

/-- C2: for every call in which `test_shots` is `None`, any task dataset
the helper returns was configured by the split operator with
`num_test_per_class` equal to `shots` (stated for an arbitrary
class-selection dataset constructor). -/
theorem test_shots_defaulted_to_shots
    (klass : String → Int → ResolvedKwargs → Except PyError ClassDataset)
    (folder : String) (shots ways : Int) (shuffle : Bool)
    (seed : Option Int) (defaults : Option Defaults) (kwargs : Kwargs)
    (t : TaskDataset)
    (h : (helper_with_default_tabular klass ClassSplitter TaskDataset.seed
        folder shots ways shuffle none seed defaults kwargs).2
      = Except.ok t) :
    t.num_test_per_class = shots := by
  simp only [helper_with_default_tabular] at h
  by_cases hn : (kwargs.num_classes_per_task).isSome
  · simp [hn] at h
  · simp only [hn, if_false] at h
    rcases hk : klass folder ((kwargs.num_classes_per_task).getD ways)
        ⟨kwargs.num_classes_per_task,
         (kwargs.transform).getD
           (((defaults.getD Defaults.empty).transform).getD Value.NumpyToTorch),
         (kwargs.target_transform).getD
           (((defaults.getD Defaults.empty).target_transform).getD
             (Value.Categorical ((kwargs.num_classes_per_task).getD ways))),
         (kwargs.class_augmentations).getD
           (((defaults.getD Defaults.empty).class_augmentations).getD Value.pyNone),
         kwargs.extra⟩ with e | d
    · rw [hk] at h
      exact absurd h (by simp)
    · rw [hk] at h
      simp [ClassSplitter, TaskDataset.seed] at h
      rw [← h]

/-- Witness for C2 at a concrete input. -/
theorem test_shots_defaulted_to_shots_witness :
    (helper_with_default_tabular Covertype ClassSplitter TaskDataset.seed
        "f" 3 2 true none none none Kwargs.empty).2
      = Except.ok
          ⟨⟨"Covertype", "f", 2,
            ⟨none, Value.NumpyToTorch, Value.Categorical 2, Value.pyNone, []⟩⟩,
           true, 3, 3, [none]⟩
    ∧ (⟨⟨"Covertype", "f", 2,
          ⟨none, Value.NumpyToTorch, Value.Categorical 2, Value.pyNone, []⟩⟩,
         true, 3, 3, [none]⟩ : TaskDataset).num_test_per_class = 3 :=
  ⟨rfl, test_shots_defaulted_to_shots Covertype "f" 3 2 true none none
    Kwargs.empty _ rfl⟩

/-- C9: an explicit `test_shots = 0` is respected: the split operator is
configured with `num_test_per_class = 0`; only `None` (not any falsy
value) triggers the defaulting of `test_shots` to `shots`. -/
theorem test_shots_zero_is_explicit
    (klass : String → Int → ResolvedKwargs → Except PyError ClassDataset)
    (folder : String) (shots ways : Int) (shuffle : Bool)
    (seed : Option Int) (defaults : Option Defaults) (kwargs : Kwargs)
    (t : TaskDataset)
    (h : (helper_with_default_tabular klass ClassSplitter TaskDataset.seed
        folder shots ways shuffle (some 0) seed defaults kwargs).2
      = Except.ok t) :
    t.num_test_per_class = 0 := by
  simp only [helper_with_default_tabular] at h
  by_cases hn : (kwargs.num_classes_per_task).isSome
  · simp [hn] at h
  · simp only [hn, if_false] at h
    rcases hk : klass folder ((kwargs.num_classes_per_task).getD ways)
        ⟨kwargs.num_classes_per_task,
         (kwargs.transform).getD
           (((defaults.getD Defaults.empty).transform).getD Value.NumpyToTorch),
         (kwargs.target_transform).getD
           (((defaults.getD Defaults.empty).target_transform).getD
             (Value.Categorical ((kwargs.num_classes_per_task).getD ways))),
         (kwargs.class_augmentations).getD
           (((defaults.getD Defaults.empty).class_augmentations).getD Value.pyNone),
         kwargs.extra⟩ with e | d
    · rw [hk] at h
      exact absurd h (by simp)
    · rw [hk] at h
      simp [ClassSplitter, TaskDataset.seed] at h
      rw [← h]

/-- Witness for C9 at a concrete input. -/
theorem test_shots_zero_is_explicit_witness :
    (helper_with_default_tabular Covertype ClassSplitter TaskDataset.seed
        "f" 3 2 true (some 0) none none Kwargs.empty).2
      = Except.ok
          ⟨⟨"Covertype", "f", 2,
            ⟨none, Value.NumpyToTorch, Value.Categorical 2, Value.pyNone, []⟩⟩,
           true, 3, 0, [none]⟩
    ∧ (⟨⟨"Covertype", "f", 2,
          ⟨none, Value.NumpyToTorch, Value.Categorical 2, Value.pyNone, []⟩⟩,
         true, 3, 0, [none]⟩ : TaskDataset).num_test_per_class = 0 :=
  ⟨rfl, test_shots_zero_is_explicit Covertype "f" 3 2 true none none
    Kwargs.empty _ rfl⟩

/-- C3: the keyword configuration passed to the class-selection dataset
constructor always carries the keys `transform`, `target_transform` and
`class_augmentations`: each key absent from the caller's mapping is
filled from the `defaults` mapping when it provides it, and otherwise
from the fixed fallbacks (`NumpyToTorch`, `Categorical` at the effective
ways, and `None` respectively); a key the caller did supply is kept. -/
theorem transform_keys_always_resolved (kind folder : String)
    (shots ways : Int) (shuffle : Bool) (test_shots seed : Option Int)
    (defaults : Option Defaults) (kwargs : Kwargs) (t : TaskDataset)
    (h : (helper_with_default_tabular (classDatasetType kind) ClassSplitter
        TaskDataset.seed folder shots ways shuffle test_shots seed defaults
        kwargs).2 = Except.ok t) :
    t.dataset.kwargs.transform
        = (kwargs.transform).getD
            (((defaults.getD Defaults.empty).transform).getD Value.NumpyToTorch)
    ∧ t.dataset.kwargs.target_transform
        = (kwargs.target_transform).getD
            (((defaults.getD Defaults.empty).target_transform).getD
              (Value.Categorical ways))
    ∧ t.dataset.kwargs.class_augmentations
        = (kwargs.class_augmentations).getD
            (((defaults.getD Defaults.empty).class_augmentations).getD
              Value.pyNone) := by
  simp only [helper_with_default_tabular] at h
  by_cases hn : (kwargs.num_classes_per_task).isSome
  · simp [hn] at h
  · have hn' : kwargs.num_classes_per_task = none :=
      Option.not_isSome_iff_eq_none.mp hn
    simp [hn', classDatasetType, ClassSplitter, TaskDataset.seed] at h
    rw [← h]
    exact ⟨rfl, rfl, rfl⟩

/-- Witness for C3 at a concrete input: the caller supplies `transform`,
the defaults mapping supplies `target_transform`, and the fixed fallback
fills `class_augmentations`. -/
theorem transform_keys_always_resolved_witness :
    (helper_with_default_tabular (classDatasetType "Covertype") ClassSplitter
        TaskDataset.seed "f" 1 3 false none none
        (some ⟨none, some (Value.custom "enc"), none⟩)
        ⟨none, some (Value.custom "tr"), none, none, []⟩).2
      = Except.ok
          ⟨⟨"Covertype", "f", 3,
            ⟨none, Value.custom "tr", Value.custom "enc", Value.pyNone, []⟩⟩,
           false, 1, 1, [none]⟩
    ∧ ((⟨⟨"Covertype", "f", 3,
          ⟨none, Value.custom "tr", Value.custom "enc", Value.pyNone, []⟩⟩,
         false, 1, 1, [none]⟩ : TaskDataset).dataset.kwargs.transform
          = ((⟨none, some (Value.custom "tr"), none, none, []⟩ : Kwargs).transform).getD
              ((((some ⟨none, some (Value.custom "enc"), none⟩ : Option Defaults).getD
                  Defaults.empty).transform).getD Value.NumpyToTorch)
       ∧ (⟨⟨"Covertype", "f", 3,
            ⟨none, Value.custom "tr", Value.custom "enc", Value.pyNone, []⟩⟩,
           false, 1, 1, [none]⟩ : TaskDataset).dataset.kwargs.target_transform
          = ((⟨none, some (Value.custom "tr"), none, none, []⟩ : Kwargs).target_transform).getD
              ((((some ⟨none, some (Value.custom "enc"), none⟩ : Option Defaults).getD
                  Defaults.empty).target_transform).getD (Value.Categorical 3))
       ∧ (⟨⟨"Covertype", "f", 3,
            ⟨none, Value.custom "tr", Value.custom "enc", Value.pyNone, []⟩⟩,
           false, 1, 1, [none]⟩ : TaskDataset).dataset.kwargs.class_augmentations
          = ((⟨none, some (Value.custom "tr"), none, none, []⟩ : Kwargs).class_augmentations).getD
              ((((some ⟨none, some (Value.custom "enc"), none⟩ : Option Defaults).getD
                  Defaults.empty).class_augmentations).getD Value.pyNone)) :=
  ⟨rfl, transform_keys_always_resolved "Covertype" "f" 1 3 false none none
    (some ⟨none, some (Value.custom "enc"), none⟩)
    ⟨none, some (Value.custom "tr"), none, none, []⟩ _ rfl⟩

/-- C4: with `num_classes_per_task` absent from the keyword mapping, the
helper builds its result in the fixed order: the class-selection dataset
is constructed from the folder, `num_classes_per_task = ways` and the
resolved keyword configuration; it is wrapped by the split operator with
`shuffle`, `num_train_per_class = shots`, `num_test_per_class =
test_shots` (already defaulted); the wrapped dataset's `seed` method is
applied once; and the wrapped dataset is returned. -/
theorem build_pipeline_fixed_order (kind folder : String) (shots ways : Int)
    (shuffle : Bool) (test_shots seed : Option Int)
    (defaults : Option Defaults) (kwargs : Kwargs)
    (h : kwargs.num_classes_per_task = none) :
    (helper_with_default_tabular (classDatasetType kind) ClassSplitter
        TaskDataset.seed folder shots ways shuffle test_shots seed defaults
        kwargs).2
      = Except.ok
          ⟨⟨kind, folder, ways,
            ⟨none,
             (kwargs.transform).getD
               (((defaults.getD Defaults.empty).transform).getD Value.NumpyToTorch),
             (kwargs.target_transform).getD
               (((defaults.getD Defaults.empty).target_transform).getD
                 (Value.Categorical ways)),
             (kwargs.class_augmentations).getD
               (((defaults.getD Defaults.empty).class_augmentations).getD
                 Value.pyNone),
             kwargs.extra⟩⟩,
           shuffle, shots, test_shots.getD shots, [seed]⟩ := by
  simp [helper_with_default_tabular, h, classDatasetType, ClassSplitter,
    TaskDataset.seed]

/-- Witness for C4 at a concrete input. -/
theorem build_pipeline_fixed_order_witness :
    (Kwargs.empty.num_classes_per_task = none)
    ∧ (helper_with_default_tabular (classDatasetType "Letter") ClassSplitter
        TaskDataset.seed "root" 4 2 true (some 7) (some 11) none
        Kwargs.empty).2
      = Except.ok
          ⟨⟨"Letter", "root", 2,
            ⟨none,
             (Kwargs.empty.transform).getD
               ((((none : Option Defaults).getD Defaults.empty).transform).getD
                 Value.NumpyToTorch),
             (Kwargs.empty.target_transform).getD
               ((((none : Option Defaults).getD Defaults.empty).target_transform).getD
                 (Value.Categorical 2)),
             (Kwargs.empty.class_augmentations).getD
               ((((none : Option Defaults).getD Defaults.empty).class_augmentations).getD
                 Value.pyNone),
             Kwargs.empty.extra⟩⟩,
           true, 4, (some 7).getD 4, [some 11]⟩ :=
  ⟨rfl, build_pipeline_fixed_order "Letter" "root" 4 2 true (some 7) (some 11)
    none Kwargs.empty rfl⟩

/-- C5: for any other arguments, calling `covertype` with `ways = 5`
emits the split-size warning, calling it with `ways = 2` emits no
split-size warning, and in the `ways = 5` case the warning does not block
construction: the returned value is exactly what delegation to the Task
Builder produces. -/
theorem covertype_split_size_warning (folder : String) (shots : Int)
    (shuffle : Bool) (test_shots seed : Option Int) (kwargs : Kwargs) :
    Warning.splitSize 5 ∈ (covertype folder shots 5 shuffle test_shots seed kwargs).1
    ∧ (∀ w : Int, Warning.splitSize w ∉
        (covertype folder shots 2 shuffle test_shots seed kwargs).1)
    ∧ (covertype folder shots 5 shuffle test_shots seed kwargs).2
        = (helper_with_default_tabular Covertype ClassSplitter TaskDataset.seed
            folder shots 5 shuffle test_shots seed none kwargs).2 := by
  refine ⟨?_, ?_, rfl⟩
  · have h5 : ((3 : Int) < 5) = True := by norm_num
    simp [covertype, h5]
  · intro w
    have h2 : ¬ ((3 : Int) < 2) := by norm_num
    by_cases hn : (kwargs.num_classes_per_task).isSome <;>
      simp [covertype, helper_with_default_tabular, h2, hn]

/-- C6: whenever the helper returns a task dataset, that dataset's seed
history is exactly the one caller-supplied seed value — the `seed` method
was invoked exactly once, with precisely that value — and the `seed`
method itself distinguishes `None` from an explicit `0`. -/
theorem seed_applied_exactly_once
    (klass : String → Int → ResolvedKwargs → Except PyError ClassDataset)
    (folder : String) (shots ways : Int) (shuffle : Bool)
    (test_shots seed : Option Int) (defaults : Option Defaults)
    (kwargs : Kwargs) (t : TaskDataset)
    (h : (helper_with_default_tabular klass ClassSplitter TaskDataset.seed
        folder shots ways shuffle test_shots seed defaults kwargs).2
      = Except.ok t) :
    t.seedHistory = [seed]
    ∧ ∀ t0 : TaskDataset, TaskDataset.seed t0 none ≠ TaskDataset.seed t0 (some 0) := by
  constructor
  · simp only [helper_with_default_tabular] at h
    by_cases hn : (kwargs.num_classes_per_task).isSome
    · simp [hn] at h
    · simp only [hn, if_false] at h
      rcases hk : klass folder ((kwargs.num_classes_per_task).getD ways)
          ⟨kwargs.num_classes_per_task,
           (kwargs.transform).getD
             (((defaults.getD Defaults.empty).transform).getD Value.NumpyToTorch),
           (kwargs.target_transform).getD
             (((defaults.getD Defaults.empty).target_transform).getD
               (Value.Categorical ((kwargs.num_classes_per_task).getD ways))),
           (kwargs.class_augmentations).getD
             (((defaults.getD Defaults.empty).class_augmentations).getD Value.pyNone),
           kwargs.extra⟩ with e | d
      · rw [hk] at h
        exact absurd h (by simp)
      · rw [hk] at h
        simp [ClassSplitter, TaskDataset.seed] at h
        rw [← h]
  · intro t0 hco
    simp [TaskDataset.seed] at hco

/-- Witness for C6 at a concrete input. -/
theorem seed_applied_exactly_once_witness :
    (helper_with_default_tabular Covertype ClassSplitter TaskDataset.seed
        "f" 3 2 true none (some 0) none Kwargs.empty).2
      = Except.ok
          ⟨⟨"Covertype", "f", 2,
            ⟨none, Value.NumpyToTorch, Value.Categorical 2, Value.pyNone, []⟩⟩,
           true, 3, 3, [some 0]⟩
    ∧ ((⟨⟨"Covertype", "f", 2,
          ⟨none, Value.NumpyToTorch, Value.Categorical 2, Value.pyNone, []⟩⟩,
         true, 3, 3, [some 0]⟩ : TaskDataset).seedHistory = [some 0]
       ∧ ∀ t0 : TaskDataset,
           TaskDataset.seed t0 none ≠ TaskDataset.seed t0 (some 0)) :=
  ⟨rfl, seed_applied_exactly_once Covertype "f" 3 2 true none (some 0) none
    Kwargs.empty _ rfl⟩

/-- C8: the helper raises nothing of its own: for arbitrary collaborator
constructors, every error it returns is either the duplicate-keyword
`TypeError` raised when binding the class constructor call (only when the
keyword mapping contains `num_classes_per_task`), or is literally an
error value returned by the class-selection dataset constructor or by the
split operator constructor — propagated unmodified, never caught or
transformed.  Warnings never abort: they live in a separate channel and
do not appear among the errors. -/
theorem errors_only_from_collaborators {D T : Type}
    (klass : String → Int → ResolvedKwargs → Except PyError D)
    (splitOperator : D → Bool → Int → Int → Except PyError T)
    (seedMethod : T → Option Int → T)
    (folder : String) (shots ways : Int) (shuffle : Bool)
    (test_shots seed : Option Int) (defaults : Option Defaults)
    (kwargs : Kwargs) (e : PyError)
    (h : (helper_with_default_tabular klass splitOperator seedMethod
        folder shots ways shuffle test_shots seed defaults kwargs).2
      = Except.error e) :
    ((kwargs.num_classes_per_task).isSome = true
      ∧ e = PyError.typeErrorDuplicateKw "num_classes_per_task")
    ∨ (∃ kw, klass folder ((kwargs.num_classes_per_task).getD ways) kw
        = Except.error e)
    ∨ (∃ d, splitOperator d shuffle shots (test_shots.getD shots)
        = Except.error e) := by
  simp only [helper_with_default_tabular] at h
  split at h
  · next hc =>
      injection h with h1
      exact Or.inl ⟨hc, h1.symm⟩
  · split at h
    · next e0 heq =>
        injection h with h1
        exact Or.inr (Or.inl ⟨_, h1 ▸ heq⟩)
    · next d heq =>
        split at h
        · next e1 heq2 =>
            injection h with h1
            exact Or.inr (Or.inr ⟨d, h1 ▸ heq2⟩)
        · next t1 heq2 =>
            exact absurd h (by simp)

/-- Witness for C8 at a concrete input: a class constructor that raises
is propagated unmodified. -/
theorem errors_only_from_collaborators_witness :
    (helper_with_default_tabular alwaysFailingKlass ClassSplitter
        TaskDataset.seed "f" 1 2 true none none none Kwargs.empty).2
      = Except.error (PyError.collaboratorError "boom")
    ∧ (((Kwargs.empty.num_classes_per_task).isSome = true
         ∧ PyError.collaboratorError "boom"
           = PyError.typeErrorDuplicateKw "num_classes_per_task")
       ∨ (∃ kw, alwaysFailingKlass "f" ((Kwargs.empty.num_classes_per_task).getD 2) kw
           = Except.error (PyError.collaboratorError "boom"))
       ∨ (∃ d, ClassSplitter d true 1 ((none : Option Int).getD 1)
           = Except.error (PyError.collaboratorError "boom"))) :=
  ⟨rfl, errors_only_from_collaborators alwaysFailingKlass ClassSplitter
    TaskDataset.seed "f" 1 2 true none none none Kwargs.empty
    (PyError.collaboratorError "boom") rfl⟩
